import Mathlib

/-!
Verification of the PWHL prediction core (feature engineering, training-data
collection, and the prediction interface) against its specification.

The definitions below are a shallow embedding of
`src/prediction/feature_engineering.py`, `src/prediction/model.py` and
`src/prediction/predict.py`.  The database session is modelled as an explicit
list of `Game` rows; SQLAlchemy query filters become `List.filter`, `ORDER BY`
becomes an insertion sort on the date column, and Python float arithmetic on
the statistics is modelled with `ℚ` (all quantities involved are exact
divisions of integers).  Dates are day numbers (`Int`), so `d2 - d1` is the
`(date2 - date1).days` of the source.
-/

/-- A row of the `games` table (`src/database/db_models.py`), restricted to the
columns the prediction core reads. -/
structure Game where
  game_id : Nat
  season_id : Nat
  date : Int
  home_team_id : Nat
  away_team_id : Nat
  home_score : Nat
  away_score : Nat
  game_status : String
deriving DecidableEq, Repr

/-- A row of the `teams` table, restricted to what `predict.py` reads. -/
structure Team where
  team_id : Nat
  team_name : String
deriving DecidableEq, Repr

/-- The status string the queries compare against. -/
def finalStatus : String := "final"

/-- Insert a game into a list sorted by `le` (used to model SQL `ORDER BY`). -/
def insertBy (le : Game → Game → Bool) (g : Game) : List Game → List Game
  | [] => [g]
  | h :: t => if le g h then g :: h :: t else h :: insertBy le g t

/-- Sort a list of games by `le` (insertion sort; models SQL `ORDER BY`). -/
def sortBy (le : Game → Game → Bool) : List Game → List Game
  | [] => []
  | h :: t => insertBy le h (sortBy le t)

/-- Ascending comparison on the `date` column. -/
def dateLe (a b : Game) : Bool := decide (a.date ≤ b.date)

/-- Descending comparison on the `date` column. -/
def dateGe (a b : Game) : Bool := decide (b.date ≤ a.date)

/-- `ORDER BY date` (ascending). -/
def orderByDate (l : List Game) : List Game := sortBy dateLe l

/-- `ORDER BY date DESC`. -/
def orderByDateDesc (l : List Game) : List Game := sortBy dateGe l

/-- The rows read by `calculate_team_win_percentage`: games of the season
strictly before `before_date` with status final, restricted by the venue
filter (`home_only` / `away_only` / either), as in
`feature_engineering.py` lines 54-69. -/
def winPctGames (db : List Game) (team_id : Nat) (before_date : Int)
    (season_id : Nat) (home_only away_only : Bool) : List Game :=
  db.filter fun g =>
    g.season_id == season_id && decide (g.date < before_date) &&
    g.game_status == finalStatus &&
    (if home_only then g.home_team_id == team_id
     else if away_only then g.away_team_id == team_id
     else g.home_team_id == team_id || g.away_team_id == team_id)

/-- The win-counting loop of `calculate_team_win_percentage` (lines 78-88):
a game counts as a win when the team, on the side it occupied, strictly
outscored the opponent. -/
def winsCount (team_id : Nat) (gs : List Game) : Nat :=
  (gs.filter fun g =>
    if g.home_team_id == team_id then decide (g.away_score < g.home_score)
    else decide (g.home_score < g.away_score)).length

/-- `calculate_team_win_percentage` (feature_engineering.py lines 26-96). -/
def calculate_team_win_percentage (db : List Game) (team_id : Nat)
    (before_date : Int) (season_id : Nat) (home_only away_only : Bool) : ℚ :=
  let games := winPctGames db team_id before_date season_id home_only away_only
  if games.length = 0 then 1/2
  else (winsCount team_id games : ℚ) / (games.length : ℚ)

/-- The rows read by `calculate_team_goals_per_game` (lines 118-133); the
query is identical in shape to the win-percentage query. -/
def goalsGames (db : List Game) (team_id : Nat) (before_date : Int)
    (season_id : Nat) (home_only away_only : Bool) : List Game :=
  db.filter fun g =>
    g.season_id == season_id && decide (g.date < before_date) &&
    g.game_status == finalStatus &&
    (if home_only then g.home_team_id == team_id
     else if away_only then g.away_team_id == team_id
     else g.home_team_id == team_id || g.away_team_id == team_id)

/-- The goal-totalling loop of `calculate_team_goals_per_game`
(lines 138-151). -/
def goalsSum (team_id : Nat) (against : Bool) (gs : List Game) : Nat :=
  gs.foldl (fun acc g =>
    acc + (if g.home_team_id == team_id
           then (if against then g.away_score else g.home_score)
           else (if against then g.home_score else g.away_score))) 0

/-- `calculate_team_goals_per_game` (feature_engineering.py lines 99-156). -/
def calculate_team_goals_per_game (db : List Game) (team_id : Nat)
    (before_date : Int) (season_id : Nat) (home_only away_only against : Bool) : ℚ :=
  let games := goalsGames db team_id before_date season_id home_only away_only
  if games.length = 0 then 5/2
  else (goalsSum team_id against games : ℚ) / (games.length : ℚ)

/-- The rows matching the `calculate_days_rest` query filter (lines 176-180). -/
def daysRestGames (db : List Game) (team_id : Nat) (game_date : Int)
    (season_id : Nat) : List Game :=
  db.filter fun g =>
    g.season_id == season_id && decide (g.date < game_date) &&
    g.game_status == finalStatus &&
    (g.home_team_id == team_id || g.away_team_id == team_id)

/-- The single row read by `calculate_days_rest`:
`.order_by(Game.date.desc()).first()` (line 181). -/
def lastGameRead (db : List Game) (team_id : Nat) (game_date : Int)
    (season_id : Nat) : Option Game :=
  (orderByDateDesc (daysRestGames db team_id game_date season_id)).head?

/-- `calculate_days_rest` (feature_engineering.py lines 159-192). -/
def calculate_days_rest (db : List Game) (team_id : Nat) (game_date : Int)
    (season_id : Nat) : Int :=
  match lastGameRead db team_id game_date season_id with
  | none => 7
  | some g => game_date - g.date

/-- The rows read by `calculate_head_to_head_record` (lines 213-221). -/
def h2hGames (db : List Game) (team_id opponent_id : Nat) (before_date : Int)
    (season_id : Nat) : List Game :=
  db.filter fun g =>
    g.season_id == season_id && decide (g.date < before_date) &&
    g.game_status == finalStatus &&
    ((g.home_team_id == team_id && g.away_team_id == opponent_id) ||
     (g.home_team_id == opponent_id && g.away_team_id == team_id))

/-- `calculate_head_to_head_record` (feature_engineering.py lines 195-238). -/
def calculate_head_to_head_record (db : List Game) (team_id opponent_id : Nat)
    (before_date : Int) (season_id : Nat) : ℚ :=
  let games := h2hGames db team_id opponent_id before_date season_id
  if games.length = 0 then 1/2
  else (winsCount team_id games : ℚ) / (games.length : ℚ)

/-- Feature-set selector strings of `get_game_features`. -/
def reducedKind : String := "reduced"

/-- The `full` feature-set selector. -/
def fullKind : String := "full"

/-- `get_game_features` (feature_engineering.py lines 241-354).  The Python
dict (insertion-ordered) is modelled as an association list. -/
def get_game_features (db : List Game) (home_team_id away_team_id : Nat)
    (game_date : Int) (season_id : Nat) (feature_set : String) :
    List (String × ℚ) :=
  let home_win_pct := calculate_team_win_percentage db home_team_id game_date season_id false false
  let away_win_pct := calculate_team_win_percentage db away_team_id game_date season_id false false
  let home_win_pct_at_home := calculate_team_win_percentage db home_team_id game_date season_id true false
  let away_win_pct_on_road := calculate_team_win_percentage db away_team_id game_date season_id false true
  let home_goals_per_game := calculate_team_goals_per_game db home_team_id game_date season_id false false false
  let away_goals_per_game := calculate_team_goals_per_game db away_team_id game_date season_id false false false
  let home_goals_against_per_game := calculate_team_goals_per_game db home_team_id game_date season_id false false true
  let away_goals_against_per_game := calculate_team_goals_per_game db away_team_id game_date season_id false false true
  let home_rest_days := calculate_days_rest db home_team_id game_date season_id
  let away_rest_days := calculate_days_rest db away_team_id game_date season_id
  let home_h2h_win_pct := calculate_head_to_head_record db home_team_id away_team_id game_date season_id
  let home_goal_differential := home_goals_per_game - home_goals_against_per_game
  let away_goal_differential := away_goals_per_game - away_goals_against_per_game
  if feature_set == reducedKind then
    [("home_goals_per_game", home_goals_per_game),
     ("away_goals_per_game", away_goals_per_game),
     ("home_goals_against_per_game", home_goals_against_per_game),
     ("away_goals_against_per_game", away_goals_against_per_game),
     ("away_goal_differential", away_goal_differential),
     ("home_h2h_win_pct", home_h2h_win_pct),
     ("away_win_pct_on_road", away_win_pct_on_road)]
  else
    [("home_win_pct", home_win_pct),
     ("away_win_pct", away_win_pct),
     ("home_win_pct_at_home", home_win_pct_at_home),
     ("away_win_pct_on_road", away_win_pct_on_road),
     ("home_goals_per_game", home_goals_per_game),
     ("away_goals_per_game", away_goals_per_game),
     ("home_goals_against_per_game", home_goals_against_per_game),
     ("away_goals_against_per_game", away_goals_against_per_game),
     ("home_goal_differential", home_goal_differential),
     ("away_goal_differential", away_goal_differential),
     ("home_rest_days", (home_rest_days : ℚ)),
     ("away_rest_days", (away_rest_days : ℚ)),
     ("rest_advantage", ((home_rest_days - away_rest_days : Int) : ℚ)),
     ("home_h2h_win_pct", home_h2h_win_pct),
     ("away_h2h_win_pct", 1 - home_h2h_win_pct)]

/-! ## Training pipeline (`src/prediction/model.py`) -/

/-- The count used by `collect_training_data`'s early-season skip
(model.py lines 107-111 and 113-117): games of the season strictly before the
contest's date in which the team took part — note that, unlike the aggregator
queries, there is **no** `game_status == 'final'` filter here. -/
def gamesBeforeCount (db : List Game) (season_id : Nat) (d : Int)
    (team_id : Nat) : Nat :=
  (db.filter fun g =>
    g.season_id == season_id && decide (g.date < d) &&
    (g.home_team_id == team_id || g.away_team_id == team_id)).length

/-- The qualifying-count of `calculate_team_win_percentage` with
`venue_filter = either`: final games of the season strictly before the date.
This is the denominator count the spec's retention rule refers to. -/
def qualifyingCount (db : List Game) (team_id : Nat) (d : Int)
    (season_id : Nat) : Nat :=
  (winPctGames db team_id d season_id false false).length

/-- The outer query of `collect_training_data` (model.py lines 91-94): all
final games of the season, ordered by date ascending. -/
def seasonFinalGames (db : List Game) (season_id : Nat) : List Game :=
  orderByDate (db.filter fun g =>
    g.season_id == season_id && g.game_status == finalStatus)

/-- `[features[name] for name in self.feature_names]` (model.py line 139 and
predict.py line 108): look each fixed name up in the feature dict; a missing
name raises `KeyError`, modelled by `none`. -/
def lookupAll (features : List (String × ℚ)) : List String → Option (List ℚ)
  | [] => some []
  | n :: ns =>
    match features.lookup n, lookupAll features ns with
    | some v, some vs => some (v :: vs)
    | _, _ => none

/-- Outcome of vectorising one feature dict inside the collection loop
(model.py lines 133-150): either an ordered vector, or the example is
skipped because a lookup raised `KeyError` (caught at line 148, `continue`).
`featureContractError` is the failure mode the spec prescribes for a
mismatch; the source has no code path producing it, and the constructor
exists to state that fact. -/
inductive AssembleOutcome where
  | vector (v : List ℚ)
  | skipped
  | featureContractError
deriving DecidableEq, Repr

/-- The per-example vectorisation step of the collection loop: extract the
fixed feature names from the example's feature dict; a missing name makes the
loop skip the example. -/
def assembleExample (feature_names : List String)
    (features : List (String × ℚ)) : AssembleOutcome :=
  match lookupAll features feature_names with
  | some v => AssembleOutcome.vector v
  | none => AssembleOutcome.skipped

/-- Mutable state of the `collect_training_data` loop (model.py lines 98-150):
`feature_names` is `self.feature_names` (fixed from the first retained
example), and `X_data`, `y_data`, `game_ids` accumulate the dataset.
`example_games` additionally records, for each appended example, the full
contest row it came from (the source keeps only `game.game_id`; the rows are
kept here so that dates of examples can be stated). -/
structure CollectState where
  feature_names : List String
  x_data : List (List ℚ)
  y_data : List Nat
  game_ids : List Nat
  example_games : List Game
deriving Repr

/-- The empty initial collection state. -/
def initCollectState : CollectState := ⟨[], [], [], [], []⟩

/-- One iteration of the `for game in games` loop of `collect_training_data`
(model.py lines 104-150). -/
def collectStep (db : List Game) (season_id min_games_played : Nat)
    (st : CollectState) (g : Game) : CollectState :=
  if gamesBeforeCount db season_id g.date g.home_team_id < min_games_played ∨
     gamesBeforeCount db season_id g.date g.away_team_id < min_games_played then
    st
  else
    let features := get_game_features db g.home_team_id g.away_team_id g.date season_id reducedKind
    let names := if st.feature_names.isEmpty then features.map Prod.fst
                 else st.feature_names
    match lookupAll features names with
    | none => { st with feature_names := names }
    | some v =>
      { feature_names := names,
        x_data := st.x_data ++ [v],
        y_data := st.y_data ++ [if g.away_score < g.home_score then 1 else 0],
        game_ids := st.game_ids ++ [g.game_id],
        example_games := st.example_games ++ [g] }

/-- The full collection loop over the season's final games. -/
def collectAll (db : List Game) (season_id min_games_played : Nat) :
    CollectState :=
  (seasonFinalGames db season_id).foldl
    (collectStep db season_id min_games_played) initCollectState

/-- Failure modes of `collect_training_data`.  The source has no
`InsufficientDataError`; when zero examples survive filtering the summary
statistics at model.py line 159 (`sum(y)/len(y)`) divide by zero and the call
dies with Python's `ZeroDivisionError`.  The `insufficientDataError`
constructor is the spec's prescribed failure and is never produced. -/
inductive CollectError where
  | zeroDivisionError
  | insufficientDataError
deriving DecidableEq, Repr

/-- `collect_training_data` (model.py lines 65-165): run the loop, then print
the summary — which divides by `len(y)` unconditionally, so an empty dataset
raises `ZeroDivisionError` — and return the collected data. -/
def collect_training_data (db : List Game)
    (season_id min_games_played : Nat) : Except CollectError CollectState :=
  let st := collectAll db season_id min_games_played
  if st.y_data.length = 0 then Except.error CollectError.zeroDivisionError
  else Except.ok st

/-- `sklearn.model_selection.train_test_split(X, y, test_size, shuffle=False)`
as used in `PWHLPredictionModel.train` (model.py lines 185-187): with a float
`test_size`, sklearn takes `n_test = ceil(n * test_size)` and, unshuffled,
returns the first `n - n_test` rows as the training set and the rest as the
test set. -/
def train_test_split_noshuffle {α : Type} (l : List α) (test_size : ℚ) :
    List α × List α :=
  let nTest : Nat := (Rat.ceil (test_size * (l.length : ℚ))).toNat
  (l.take (l.length - nTest), l.drop (l.length - nTest))

/-! ## Prediction service (`src/prediction/predict.py`) -/

/-- The external scikit-learn binary classifier, modelled at its documented
interface: for a feature vector it yields the class-1 (home win) probability
`probHome x ∈ [0, 1]`; `predict_proba` returns the row
`[1 - probHome x, probHome x]` (classes `[0, 1]`), and `predict` returns 1
exactly when the decision function is positive, i.e. when
`probHome x > 1/2`. -/
structure BinaryClassifier where
  probHome : List ℚ → ℚ
  probHome_nonneg : ∀ x, 0 ≤ probHome x
  probHome_le_one : ∀ x, probHome x ≤ 1

/-- The trained-model artifact (`model_data` in model.py lines 302-309),
restricted to the fields `predict_single_game` reads. -/
structure TrainedModel where
  classifier : BinaryClassifier
  feature_names : List String

/-- State of the model file on disk, as distinguished by `load_trained_model`
(predict.py lines 38-55): absent (`os.path.exists` fails), unreadable
(`pickle.load` raises, caught at line 53), or a stored artifact. -/
inductive ModelFile where
  | absent
  | unreadable
  | stored (m : TrainedModel)

/-- `load_trained_model` (predict.py lines 38-55): returns the model, or
`None` when the file is absent or unreadable (both paths print an error and
return `None`; no exception escapes). -/
def load_trained_model (disk : ModelFile) : Option TrainedModel :=
  match disk with
  | ModelFile.absent => none
  | ModelFile.unreadable => none
  | ModelFile.stored m => some m

/-- `get_team_name` (predict.py lines 58-63). -/
def get_team_name (teams : List Team) (team_id : Nat) : String :=
  match (teams.filter fun t => t.team_id == team_id).head? with
  | some t => t.team_name
  | none => "Team " ++ toString team_id

/-- The dictionary returned by `predict_single_game`
(predict.py lines 142-153). -/
structure PredictionResult where
  home_team_id : Nat
  away_team_id : Nat
  home_team_name : String
  away_team_name : String
  game_date : Int
  home_win_probability : ℚ
  away_win_probability : ℚ
  predicted_winner : String
  confidence : ℚ
  features : List (String × ℚ)

/-- How a call to `predict_single_game` ends: with a result dict, with the
`return None` taken when no model could be loaded (line 84), or with an
uncaught exception.  `modelNotFoundError` is the failure the spec prescribes
for a missing artifact; no code path produces it.  `keyError` is the uncaught
`KeyError` of the feature lookup at line 108. -/
inductive PredictOutcome where
  | ok (r : PredictionResult)
  | noneReturned
  | modelNotFoundError
  | keyError

/-- `predict_single_game` (predict.py lines 66-158). -/
def predict_single_game (db : List Game) (teams : List Team)
    (disk : ModelFile) (home_team_id away_team_id : Nat) (game_date : Int)
    (season_id : Nat) (model? : Option TrainedModel) : PredictOutcome :=
  let loaded := match model? with
                | some m => some m
                | none => load_trained_model disk
  match loaded with
  | none => PredictOutcome.noneReturned
  | some model =>
    let home_team_name := get_team_name teams home_team_id
    let away_team_name := get_team_name teams away_team_id
    let features := get_game_features db home_team_id away_team_id game_date season_id reducedKind
    match lookupAll features model.feature_names with
    | none => PredictOutcome.keyError
    | some feature_vector =>
      let p := model.classifier.probHome feature_vector
      let prediction : Nat := if 1/2 < p then 1 else 0
      let away_win_prob := 1 - p
      let home_win_prob := p
      PredictOutcome.ok
        { home_team_id := home_team_id,
          away_team_id := away_team_id,
          home_team_name := home_team_name,
          away_team_name := away_team_name,
          game_date := game_date,
          home_win_probability := home_win_prob,
          away_win_probability := away_win_prob,
          predicted_winner := if prediction == 1 then home_team_name else away_team_name,
          confidence := max home_win_prob away_win_prob,
          features := features }

/-! ## Helper lemmas -/

/-- Membership in an insertion is membership in the inserted element or the
original list. -/
theorem mem_insertBy {le : Game → Game → Bool} {g a : Game} :
    ∀ {l : List Game}, a ∈ insertBy le g l ↔ a = g ∨ a ∈ l := by
  intro l
  induction l with
  | nil => simp [insertBy]
  | cons h t ih =>
    rw [insertBy]
    by_cases hle : le g h
    · rw [if_pos hle]
      simp
    · rw [if_neg hle]
      simp only [List.mem_cons, ih]
      tauto

/-- Sorting does not change membership. -/
theorem mem_sortBy {le : Game → Game → Bool} {a : Game} :
    ∀ {l : List Game}, a ∈ sortBy le l ↔ a ∈ l := by
  intro l
  induction l with
  | nil => simp [sortBy]
  | cons h t ih => simp [sortBy, mem_insertBy, ih]

/-- Inserting into a date-sorted list keeps it date-sorted. -/
theorem pairwise_insertBy_dateLe {g : Game} :
    ∀ {l : List Game}, l.Pairwise (fun a b => a.date ≤ b.date) →
      (insertBy dateLe g l).Pairwise (fun a b => a.date ≤ b.date) := by
  intro l
  induction l with
  | nil => intro _; simp [insertBy]
  | cons h t ih =>
    intro hp
    rw [List.pairwise_cons] at hp
    by_cases hle : dateLe g h
    · have hgh : g.date ≤ h.date := by
        simpa [dateLe] using hle
      rw [insertBy, if_pos hle]
      refine List.pairwise_cons.mpr ⟨?_, List.pairwise_cons.mpr hp⟩
      intro b hb
      rcases List.mem_cons.mp hb with hb | hb
      · exact hb ▸ hgh
      · exact le_trans hgh (hp.1 b hb)
    · have hhg : h.date ≤ g.date := by
        have := hle
        simp only [dateLe, decide_eq_true_eq] at this
        omega
      rw [insertBy, if_neg hle]
      refine List.pairwise_cons.mpr ⟨?_, ih hp.2⟩
      intro b hb
      rcases mem_insertBy.mp hb with hb | hb
      · exact hb ▸ hhg
      · exact hp.1 b hb
/-- `ORDER BY date` produces a list that is sorted by date. -/
theorem pairwise_orderByDate (l : List Game) :
    (orderByDate l).Pairwise (fun a b => a.date ≤ b.date) := by
  induction l with
  | nil => simp [orderByDate, sortBy]
  | cons h t ih => exact pairwise_insertBy_dateLe ih

/-- A key that is distinct from the head key looks up in the tail. -/
theorem lookup_cons_ne {a : String} {b : ℚ} {t : List (String × ℚ)}
    {n : String} (h : n ≠ a) : ((a, b) :: t).lookup n = t.lookup n := by
  simp [List.lookup, beq_false_of_ne h]

/-- Looking a list's own keys up, in order, returns its own values, provided
the keys are distinct. -/
theorem lookupAll_self :
    ∀ {l : List (String × ℚ)}, (l.map Prod.fst).Nodup →
      lookupAll l (l.map Prod.fst) = some (l.map Prod.snd) := by
  intro l
  induction l with
  | nil => intro _; rfl
  | cons p t ih =>
    intro hnd
    rw [List.map_cons, List.nodup_cons] at hnd
    have hcongr : ∀ ns : List String, (∀ n ∈ ns, n ∈ t.map Prod.fst) →
        lookupAll (p :: t) ns = lookupAll t ns := by
      intro ns
      induction ns with
      | nil => intro _; rfl
      | cons n ns ihn =>
        intro hmem
        have hne : n ≠ p.1 := by
          intro he
          exact hnd.1 (he ▸ hmem n (List.mem_cons_self n ns))
        have : ((p.1, p.2) :: t).lookup n = t.lookup n := lookup_cons_ne hne
        simp only [lookupAll, this, ihn (fun m hm => hmem m (List.mem_cons_of_mem n hm))]
    have hhead : ((p.1, p.2) :: t).lookup p.1 = some p.2 := by
      simp [List.lookup]
    simp only [List.map_cons, lookupAll, hhead,
      hcongr (t.map Prod.fst) (fun m hm => hm), ih hnd.2]

/-- The seven feature names of the `reduced` feature set, in the order
`get_game_features` produces them. -/
def reducedNames : List String :=
  ["home_goals_per_game", "away_goals_per_game", "home_goals_against_per_game",
   "away_goals_against_per_game", "away_goal_differential", "home_h2h_win_pct",
   "away_win_pct_on_road"]

/-- The keys of a reduced feature dict are always `reducedNames`. -/
theorem get_game_features_reduced_keys (db : List Game)
    (home_team_id away_team_id : Nat) (game_date : Int) (season_id : Nat) :
    (get_game_features db home_team_id away_team_id game_date season_id
      reducedKind).map Prod.fst = reducedNames := rfl

/-- A reduced feature dict always vectorises successfully against
`reducedNames`, yielding exactly its values. -/
theorem lookupAll_reduced (db : List Game) (home_team_id away_team_id : Nat)
    (game_date : Int) (season_id : Nat) :
    lookupAll (get_game_features db home_team_id away_team_id game_date season_id reducedKind)
      reducedNames =
    some ((get_game_features db home_team_id away_team_id game_date season_id reducedKind).map
      Prod.snd) := by
  have h := get_game_features_reduced_keys db home_team_id away_team_id game_date season_id
  rw [← h]
  exact lookupAll_self (by rw [h]; decide)

/-- The retention test of the collection loop as a Boolean predicate: both
sides have at least `min_games_played` prior contests of the season — of any
status — ending strictly before the contest's date. -/
def retainedB (db : List Game) (season_id min_games_played : Nat)
    (g : Game) : Bool :=
  decide (min_games_played ≤ gamesBeforeCount db season_id g.date g.home_team_id) &&
  decide (min_games_played ≤ gamesBeforeCount db season_id g.date g.away_team_id)

/-- The label appended for a retained contest (model.py line 142). -/
def labelOf (g : Game) : Nat := if g.away_score < g.home_score then 1 else 0

/-- A skipped early-season contest leaves the loop state unchanged. -/
theorem collectStep_not_retained {db : List Game}
    {season_id min_games_played : Nat} {st : CollectState} {g : Game}
    (h : retainedB db season_id min_games_played g = false) :
    collectStep db season_id min_games_played st g = st := by
  have : gamesBeforeCount db season_id g.date g.home_team_id < min_games_played ∨
      gamesBeforeCount db season_id g.date g.away_team_id < min_games_played := by
    simp only [retainedB, Bool.and_eq_false_iff, decide_eq_false_iff_not, not_le] at h
    exact h
  rw [collectStep, if_pos this]

/-- The state produced by a retained iteration of the collection loop: one
example is appended, whose vector is the value column of the contest's
reduced feature dict, and `feature_names` is (or stays) `reducedNames`. -/
def appendExample (db : List Game) (season_id : Nat) (st : CollectState)
    (g : Game) : CollectState :=
  { feature_names := reducedNames,
    x_data := st.x_data ++
      [(get_game_features db g.home_team_id g.away_team_id g.date season_id reducedKind).map Prod.snd],
    y_data := st.y_data ++ [labelOf g],
    game_ids := st.game_ids ++ [g.game_id],
    example_games := st.example_games ++ [g] }

/-- A retained contest appends exactly one example, whose vector is the value
column of its reduced feature dict, and fixes `feature_names` at
`reducedNames`. -/
theorem collectStep_retained {db : List Game}
    {season_id min_games_played : Nat} {st : CollectState} {g : Game}
    (h : retainedB db season_id min_games_played g = true)
    (hn : st.feature_names = [] ∨ st.feature_names = reducedNames) :
    collectStep db season_id min_games_played st g =
      appendExample db season_id st g := by
  have hnot : ¬ (gamesBeforeCount db season_id g.date g.home_team_id < min_games_played ∨
      gamesBeforeCount db season_id g.date g.away_team_id < min_games_played) := by
    simp only [retainedB, Bool.and_eq_true, decide_eq_true_eq] at h
    omega
  rw [collectStep, if_neg hnot]
  have hnames : (if st.feature_names.isEmpty then
      (get_game_features db g.home_team_id g.away_team_id g.date season_id reducedKind).map Prod.fst
      else st.feature_names) = reducedNames := by
    rcases hn with hn | hn
    · rw [hn]
      exact get_game_features_reduced_keys db g.home_team_id g.away_team_id g.date season_id
    · rw [hn]
      rfl
  simp only [hnames, lookupAll_reduced, labelOf, appendExample]

/-- Characterisation of the collection loop: starting from a state whose
`feature_names` is empty or already fixed, folding over any list of contests
appends exactly the retained contests (in order), with their labels. -/
theorem collectFold_spec (db : List Game) (season_id min_games_played : Nat) :
    ∀ (gs : List Game) (st : CollectState),
      st.feature_names = [] ∨ st.feature_names = reducedNames →
      (gs.foldl (collectStep db season_id min_games_played) st).example_games =
        st.example_games ++ gs.filter (retainedB db season_id min_games_played) ∧
      (gs.foldl (collectStep db season_id min_games_played) st).y_data =
        st.y_data ++ (gs.filter (retainedB db season_id min_games_played)).map labelOf ∧
      ((gs.foldl (collectStep db season_id min_games_played) st).feature_names = [] ∨
       (gs.foldl (collectStep db season_id min_games_played) st).feature_names = reducedNames) := by
  intro gs
  induction gs with
  | nil =>
    intro st hn
    simpa using hn
  | cons g rest ih =>
    intro st hn
    rw [List.foldl_cons]
    by_cases hr : retainedB db season_id min_games_played g = true
    · rw [collectStep_retained hr hn]
      have := ih (appendExample db season_id st g) (Or.inr rfl)
      rw [List.filter_cons_of_pos hr]
      refine ⟨?_, ?_, this.2.2⟩
      · rw [this.1]
        simp [appendExample]
      · rw [this.2.1]
        simp [appendExample]
    · have hr' : retainedB db season_id min_games_played g = false := by
        simpa using hr
      rw [collectStep_not_retained hr']
      rw [List.filter_cons_of_neg (by simp [hr'])]
      exact ih st hn

/-- The examples collected by `collect_training_data` are exactly the
season's final contests, in date order, that pass the min-games test. -/
theorem collectAll_example_games (db : List Game)
    (season_id min_games_played : Nat) :
    (collectAll db season_id min_games_played).example_games =
      (seasonFinalGames db season_id).filter (retainedB db season_id min_games_played) := by
  have := collectFold_spec db season_id min_games_played
    (seasonFinalGames db season_id) initCollectState (Or.inl rfl)
  simpa [collectAll, initCollectState] using this.1

/-- The labels collected are exactly the labels of the retained contests. -/
theorem collectAll_y_data (db : List Game) (season_id min_games_played : Nat) :
    (collectAll db season_id min_games_played).y_data =
      ((seasonFinalGames db season_id).filter
        (retainedB db season_id min_games_played)).map labelOf := by
  have := collectFold_spec db season_id min_games_played
    (seasonFinalGames db season_id) initCollectState (Or.inl rfl)
  simpa [collectAll, initCollectState] using this.2.1

/-- `head?` of a list returns one of its members. -/
theorem mem_of_head? {l : List Game} {a : Game} (h : l.head? = some a) :
    a ∈ l := by
  cases l with
  | nil => simp at h
  | cons x t =>
    simp only [List.head?_cons, Option.some.injEq] at h
    exact h ▸ List.mem_cons_self x t

/-! ## Claim theorems -/

/-- C1 — No-leakage invariant: every contest record read by an aggregator
operation (win rate via `winPctGames`, goals per game via `goalsGames`, days
rest via `lastGameRead`, head-to-head via `h2hGames`) invoked with cutoff
date `cutoff` has `date < cutoff`; in particular a contest `C` whose own date
is used as the cutoff is never among the records read. -/
theorem aggregators_no_leakage (db : List Game) (team_id opponent_id : Nat)
    (cutoff : Int) (season_id : Nat) (home_only away_only : Bool) :
    (∀ g ∈ winPctGames db team_id cutoff season_id home_only away_only, g.date < cutoff) ∧
    (∀ g ∈ goalsGames db team_id cutoff season_id home_only away_only, g.date < cutoff) ∧
    (∀ g, lastGameRead db team_id cutoff season_id = some g → g.date < cutoff) ∧
    (∀ g ∈ h2hGames db team_id opponent_id cutoff season_id, g.date < cutoff) ∧
    (∀ C : Game, C.date = cutoff →
      C ∉ winPctGames db team_id cutoff season_id home_only away_only ∧
      C ∉ goalsGames db team_id cutoff season_id home_only away_only ∧
      lastGameRead db team_id cutoff season_id ≠ some C ∧
      C ∉ h2hGames db team_id opponent_id cutoff season_id) := by
  have hw : ∀ g ∈ winPctGames db team_id cutoff season_id home_only away_only,
      g.date < cutoff := by
    intro g hg
    have := (List.mem_filter.mp hg).2
    simp only [Bool.and_eq_true, decide_eq_true_eq] at this
    tauto
  have hgo : ∀ g ∈ goalsGames db team_id cutoff season_id home_only away_only,
      g.date < cutoff := by
    intro g hg
    have := (List.mem_filter.mp hg).2
    simp only [Bool.and_eq_true, decide_eq_true_eq] at this
    tauto
  have hre : ∀ g, lastGameRead db team_id cutoff season_id = some g →
      g.date < cutoff := by
    intro g hg
    have hmem : g ∈ daysRestGames db team_id cutoff season_id := by
      have hs : g ∈ sortBy dateGe (daysRestGames db team_id cutoff season_id) :=
        mem_of_head? hg
      exact mem_sortBy.mp hs
    have := (List.mem_filter.mp hmem).2
    simp only [Bool.and_eq_true, decide_eq_true_eq] at this
    tauto
  have hh : ∀ g ∈ h2hGames db team_id opponent_id cutoff season_id,
      g.date < cutoff := by
    intro g hg
    have := (List.mem_filter.mp hg).2
    simp only [Bool.and_eq_true, decide_eq_true_eq] at this
    tauto
  refine ⟨hw, hgo, hre, hh, ?_⟩
  intro C hC
  refine ⟨fun hmem => ?_, fun hmem => ?_, fun hmem => ?_, fun hmem => ?_⟩
  · exact absurd (hC ▸ hw C hmem) (lt_irrefl cutoff)
  · exact absurd (hC ▸ hgo C hmem) (lt_irrefl cutoff)
  · exact absurd (hC ▸ hre C hmem) (lt_irrefl cutoff)
  · exact absurd (hC ▸ hh C hmem) (lt_irrefl cutoff)

/-- A concrete final contest used to witness the no-leakage theorem. -/
def c1Game : Game :=
  { game_id := 1, season_id := 1, date := 5, home_team_id := 1,
    away_team_id := 2, home_score := 3, away_score := 1,
    game_status := finalStatus }

/-- Witness for C1: with the store containing exactly `c1Game` and the cutoff
equal to `c1Game`'s own date, `c1Game` is not among the records the win-rate
aggregator reads. -/
theorem aggregators_no_leakage_witness :
    c1Game ∉ winPctGames [c1Game] 1 5 1 false false :=
  ((aggregators_no_leakage [c1Game] 1 2 5 1 false false).2.2.2.2 c1Game rfl).1

/-- C2 — Default-prior property: with zero qualifying prior final contests,
win rate and head-to-head rate return exactly 1/2, goals per game (for and
against) returns exactly 5/2, days rest returns exactly 7, and none of these
values is 0 (the functions are total, so no exception or NaN can arise). -/
theorem aggregators_default_priors (db : List Game) (team_id opponent_id : Nat)
    (cutoff : Int) (season_id : Nat) (home_only away_only : Bool)
    (hw : winPctGames db team_id cutoff season_id home_only away_only = [])
    (hg : goalsGames db team_id cutoff season_id home_only away_only = [])
    (hh : h2hGames db team_id opponent_id cutoff season_id = [])
    (hr : daysRestGames db team_id cutoff season_id = []) :
    calculate_team_win_percentage db team_id cutoff season_id home_only away_only = 1/2 ∧
    calculate_team_goals_per_game db team_id cutoff season_id home_only away_only false = 5/2 ∧
    calculate_team_goals_per_game db team_id cutoff season_id home_only away_only true = 5/2 ∧
    calculate_days_rest db team_id cutoff season_id = 7 ∧
    calculate_head_to_head_record db team_id opponent_id cutoff season_id = 1/2 ∧
    calculate_team_win_percentage db team_id cutoff season_id home_only away_only ≠ 0 ∧
    calculate_team_goals_per_game db team_id cutoff season_id home_only away_only false ≠ 0 ∧
    calculate_team_goals_per_game db team_id cutoff season_id home_only away_only true ≠ 0 ∧
    calculate_head_to_head_record db team_id opponent_id cutoff season_id ≠ 0 ∧
    calculate_days_rest db team_id cutoff season_id ≠ 0 := by
  have e1 : calculate_team_win_percentage db team_id cutoff season_id home_only away_only = 1/2 := by
    simp [calculate_team_win_percentage, hw]
  have e2 : calculate_team_goals_per_game db team_id cutoff season_id home_only away_only false = 5/2 := by
    simp [calculate_team_goals_per_game, hg]
  have e3 : calculate_team_goals_per_game db team_id cutoff season_id home_only away_only true = 5/2 := by
    simp [calculate_team_goals_per_game, hg]
  have e4 : calculate_days_rest db team_id cutoff season_id = 7 := by
    simp [calculate_days_rest, lastGameRead, hr, orderByDateDesc, sortBy]
  have e5 : calculate_head_to_head_record db team_id opponent_id cutoff season_id = 1/2 := by
    simp [calculate_head_to_head_record, hh]
  refine ⟨e1, e2, e3, e4, e5, ?_, ?_, ?_, ?_, ?_⟩
  · rw [e1]; norm_num
  · rw [e2]; norm_num
  · rw [e3]; norm_num
  · rw [e5]; norm_num
  · rw [e4]; norm_num

/-- Witness for C2: an empty contest store has zero qualifying contests for
every query, and days rest evaluates to the prior 7. -/
theorem aggregators_default_priors_witness :
    calculate_days_rest [] 1 5 1 = 7 :=
  (aggregators_default_priors [] 1 2 5 1 false false rfl rfl rfl rfl).2.2.2.1

/-- C7 — win rate arithmetic: with at least one qualifying prior final
contest, `calculate_team_win_percentage` equals the number of qualifying
contests the team strictly outscored its opponent in, divided by the total
number of qualifying contests (so a tied contest counts in the denominator
but not the numerator); consequently a history consisting only of ties gives
exactly 0. -/
theorem win_rate_ties_in_denominator (db : List Game) (team_id : Nat)
    (cutoff : Int) (season_id : Nat) (home_only away_only : Bool)
    (h : winPctGames db team_id cutoff season_id home_only away_only ≠ []) :
    calculate_team_win_percentage db team_id cutoff season_id home_only away_only =
      (winsCount team_id (winPctGames db team_id cutoff season_id home_only away_only) : ℚ) /
      ((winPctGames db team_id cutoff season_id home_only away_only).length : ℚ) ∧
    ((∀ g ∈ winPctGames db team_id cutoff season_id home_only away_only,
        g.home_score = g.away_score) →
      calculate_team_win_percentage db team_id cutoff season_id home_only away_only = 0) := by
  have hlen : ¬ (winPctGames db team_id cutoff season_id home_only away_only).length = 0 := by
    simpa [List.length_eq_zero] using h
  have e1 : calculate_team_win_percentage db team_id cutoff season_id home_only away_only =
      (winsCount team_id (winPctGames db team_id cutoff season_id home_only away_only) : ℚ) /
      ((winPctGames db team_id cutoff season_id home_only away_only).length : ℚ) := by
    rw [calculate_team_win_percentage]
    simp only [hlen, if_false]
  refine ⟨e1, ?_⟩
  intro hties
  have hz : winsCount team_id (winPctGames db team_id cutoff season_id home_only away_only) = 0 := by
    rw [winsCount, List.length_eq_zero]
    rw [List.filter_eq_nil_iff]
    intro g hg
    have hts := hties g hg
    by_cases hcase : g.home_team_id == team_id
    · rw [if_pos hcase]
      simp only [decide_eq_true_eq, not_lt]
      omega
    · rw [if_neg hcase]
      simp only [decide_eq_true_eq, not_lt]
      omega
  rw [e1, hz]
  simp

/-- A concrete tied final contest. -/
def tieGame : Game :=
  { game_id := 1, season_id := 1, date := 0, home_team_id := 1,
    away_team_id := 2, home_score := 2, away_score := 2,
    game_status := finalStatus }

/-- Witness for C7: a store whose only qualifying contest is a tie yields a
win rate of exactly 0. -/
theorem win_rate_ties_in_denominator_witness :
    calculate_team_win_percentage [tieGame] 1 1 1 false false = 0 :=
  (win_rate_ties_in_denominator [tieGame] 1 1 1 false false (by decide)).2 (by decide)

/-- Key of the home head-to-head feature. -/
def homeH2HKey : String := "home_h2h_win_pct"

/-- Key of the away head-to-head feature. -/
def awayH2HKey : String := "away_h2h_win_pct"

/-- C9 — Head-to-head complement: in the full feature set, the
`home_h2h_win_pct` and `away_h2h_win_pct` entries exist for every matchup and
sum to exactly 1. -/
theorem h2h_complement (db : List Game) (home_team_id away_team_id : Nat)
    (game_date : Int) (season_id : Nat) :
    ∃ p q,
      (get_game_features db home_team_id away_team_id game_date season_id fullKind).lookup
        homeH2HKey = some p ∧
      (get_game_features db home_team_id away_team_id game_date season_id fullKind).lookup
        awayH2HKey = some q ∧
      p + q = 1 :=
  ⟨calculate_head_to_head_record db home_team_id away_team_id game_date season_id,
   1 - calculate_head_to_head_record db home_team_id away_team_id game_date season_id,
   rfl, rfl, by ring⟩

/-- A season-1 contest that is not final (still scheduled) but dated before
`c3Contest`; the retention count of the collection loop counts it, the
win-rate qualifying count does not. -/
def c3PriorGame : Game :=
  { game_id := 10, season_id := 1, date := 0, home_team_id := 1,
    away_team_id := 2, home_score := 0, away_score := 0,
    game_status := "scheduled" }

/-- The final contest whose retention is at issue. -/
def c3Contest : Game :=
  { game_id := 11, season_id := 1, date := 1, home_team_id := 1,
    away_team_id := 2, home_score := 3, away_score := 1,
    game_status := finalStatus }

/-- The store for the C3 counterexample. -/
def c3Db : List Game := [c3PriorGame, c3Contest]

/-- C3 counterexample: with `min_games_played = 1`, the contest `c3Contest`
is retained for labeling — its only prior contest is a non-final
(`scheduled`) one, which the loop's count accepts — even though both sides
have zero qualifying prior contests in the win-rate sense (final status);
the claim "retained iff both sides have at least `min_games_played`
qualifying prior contests (win-rate qualifying logic)" therefore fails. -/
theorem retention_counts_any_status_counterexample :
    c3Contest ∈ (collectAll c3Db 1 1).example_games ∧
    qualifyingCount c3Db c3Contest.home_team_id c3Contest.date 1 = 0 ∧
    qualifyingCount c3Db c3Contest.away_team_id c3Contest.date 1 = 0 ∧
    ¬ (1 ≤ qualifyingCount c3Db c3Contest.home_team_id c3Contest.date 1) := by
  refine ⟨?_, by decide, by decide, by decide⟩
  rw [collectAll_example_games]
  decide

/-- C3 amended — a final contest of the season is retained for labeling if
and only if both its participants have at least `min_games_played` prior
contests of that season with date strictly before the contest's date, at
either venue, **of any status** (the loop's count, unlike the win-rate
denominator, does not filter on final status). -/
theorem retention_iff_min_prior_any_status (db : List Game)
    (season_id min_games_played : Nat) (g : Game)
    (hg : g ∈ seasonFinalGames db season_id) :
    g ∈ (collectAll db season_id min_games_played).example_games ↔
      (min_games_played ≤ gamesBeforeCount db season_id g.date g.home_team_id ∧
       min_games_played ≤ gamesBeforeCount db season_id g.date g.away_team_id) := by
  rw [collectAll_example_games, List.mem_filter]
  constructor
  · intro h
    have := h.2
    simpa [retainedB] using this
  · intro h
    refine ⟨hg, ?_⟩
    simpa [retainedB] using h

/-- Witness for the amended C3: instantiated at the counterexample store,
where the retention test passes thanks to the non-final prior contest. -/
theorem retention_iff_min_prior_any_status_witness :
    c3Contest ∈ (collectAll c3Db 1 1).example_games ↔
      (1 ≤ gamesBeforeCount c3Db 1 c3Contest.date c3Contest.home_team_id ∧
       1 ≤ gamesBeforeCount c3Db 1 c3Contest.date c3Contest.away_team_id) :=
  retention_iff_min_prior_any_status c3Db 1 1 c3Contest (by decide)

/-- Three completed contests between the two participants of season 1: with
`min_games_played = 5`, none is retained. -/
def c4Db : List Game :=
  [{ game_id := 1, season_id := 1, date := 1, home_team_id := 1,
     away_team_id := 2, home_score := 2, away_score := 1,
     game_status := finalStatus },
   { game_id := 2, season_id := 1, date := 2, home_team_id := 2,
     away_team_id := 1, home_score := 3, away_score := 2,
     game_status := finalStatus },
   { game_id := 3, season_id := 1, date := 3, home_team_id := 1,
     away_team_id := 2, home_score := 1, away_score := 2,
     game_status := finalStatus }]

/-- C4 counterexample: training with `min_games_played = 5` on a season where
every participant has only 3 completed contests leaves zero labeled examples,
and `collect_training_data` then fails — but with the `ZeroDivisionError`
raised by the unconditional summary statistics (`sum(y)/len(y)`, model.py
line 159), not with the `InsufficientDataError` the claim requires (no such
error exists in the source). -/
theorem empty_training_zero_division_counterexample :
    collect_training_data c4Db 1 5 = Except.error CollectError.zeroDivisionError ∧
    CollectError.zeroDivisionError ≠ CollectError.insufficientDataError := by
  constructor
  · rw [collect_training_data]
    have hy : (collectAll c4Db 1 5).y_data = [] := by
      rw [collectAll_y_data]
      decide
    simp [hy]
  · decide

/-- C4 amended — if zero labeled contests remain after the min-games
filtering, `collect_training_data` fails with the Python `ZeroDivisionError`
arising from its summary statistics, not with `InsufficientDataError`. -/
theorem empty_training_fails_with_zero_division (db : List Game)
    (season_id min_games_played : Nat)
    (h : (seasonFinalGames db season_id).filter
      (retainedB db season_id min_games_played) = []) :
    collect_training_data db season_id min_games_played =
      Except.error CollectError.zeroDivisionError := by
  rw [collect_training_data]
  have hy : (collectAll db season_id min_games_played).y_data = [] := by
    rw [collectAll_y_data, h]
    rfl
  simp [hy]

/-- Witness for the amended C4, at the three-contest store. -/
theorem empty_training_fails_with_zero_division_witness :
    collect_training_data c4Db 1 5 =
      Except.error CollectError.zeroDivisionError :=
  empty_training_fails_with_zero_division c4Db 1 5 (by decide)

/-- If every requested name is present in the feature dict, the lookup
comprehension succeeds and returns the values in the requested order. -/
theorem lookupAll_some_of_all_mem {features : List (String × ℚ)} :
    ∀ {ns : List String}, (∀ n ∈ ns, (features.lookup n).isSome) →
      lookupAll features ns =
        some (ns.map fun n => (features.lookup n).getD 0) := by
  intro ns
  induction ns with
  | nil => intro _; rfl
  | cons n t ih =>
    intro h
    have hn := h n (List.mem_cons_self n t)
    obtain ⟨v, hv⟩ := Option.isSome_iff_exists.mp hn
    rw [lookupAll, hv, ih (fun m hm => h m (List.mem_cons_of_mem n hm))]
    simp [hv]

/-- If some requested name is absent, the lookup comprehension raises
`KeyError` (returns `none`). -/
theorem lookupAll_none_of_missing {features : List (String × ℚ)} {n : String} :
    ∀ {ns : List String}, n ∈ ns → features.lookup n = none →
      lookupAll features ns = none := by
  intro ns
  induction ns with
  | nil => intro h _; cases h
  | cons m t ih =>
    intro hmem hnone
    rcases List.mem_cons.mp hmem with h | h
    · subst h
      rw [lookupAll, hnone]
    · rw [lookupAll, ih h hnone]
      cases features.lookup m <;> rfl

/-- C5 counterexample: with the fixed feature names `["a", "b"]`, a later
feature dict that exposes the names `a, c` (a name mismatch) makes the
collection loop silently skip the example — not fail with
`FeatureContractError` — and a dict exposing the same names in a different
order (`b, a`) is silently reordered into the fixed order rather than
rejected. -/
theorem feature_mismatch_skipped_counterexample :
    assembleExample ["a", "b"] [("a", (1 : ℚ)), ("c", 2)] = AssembleOutcome.skipped ∧
    AssembleOutcome.skipped ≠ AssembleOutcome.featureContractError ∧
    assembleExample ["a", "b"] [("b", (2 : ℚ)), ("a", 1)] = AssembleOutcome.vector [1, 2] :=
  ⟨rfl, by decide, rfl⟩

/-- C5 amended — feature names are fixed from the first computed vector, and
later feature dicts are read *by name* in that fixed order: a dict containing
every fixed name (in any order, possibly with extra names) is silently
normalised into the fixed order, and a dict missing a fixed name causes that
example to be silently skipped (dropped with a warning); no
`FeatureContractError` exists or is raised. -/
theorem feature_vector_assembly_by_name (feature_names : List String)
    (features : List (String × ℚ)) :
    ((∀ n ∈ feature_names, (features.lookup n).isSome) →
      assembleExample feature_names features =
        AssembleOutcome.vector
          (feature_names.map fun n => (features.lookup n).getD 0)) ∧
    (∀ n ∈ feature_names, features.lookup n = none →
      assembleExample feature_names features = AssembleOutcome.skipped) := by
  constructor
  · intro hall
    rw [assembleExample, lookupAll_some_of_all_mem hall]
  · intro n hn hnone
    rw [assembleExample, lookupAll_none_of_missing hn hnone]

/-- Witness for the amended C5: a dict holding the single fixed name
vectorises to its value. -/
theorem feature_vector_assembly_by_name_witness :
    assembleExample ["a"] [("a", (3 : ℚ))] = AssembleOutcome.vector [3] :=
  (feature_vector_assembly_by_name ["a"] [("a", (3 : ℚ))]).1 (by decide)

/-- In a pairwise-related list, every element of any prefix is related to
every element of the matching suffix. -/
theorem pairwise_take_drop {R : Game → Game → Prop} {l : List Game}
    (h : l.Pairwise R) (k : Nat) :
    ∀ a ∈ l.take k, ∀ b ∈ l.drop k, R a b := by
  have h2 : (l.take k ++ l.drop k).Pairwise R := by
    rw [List.take_append_drop]
    exact h
  exact (List.pairwise_append.mp h2).2.2

/-- C8 — Chronological split property: the labeled dataset is assembled in
date order, and the non-shuffled train/test split takes a prefix as the
training set and the suffix as the test set, so every test example's contest
date is at least every training example's contest date. -/
theorem chronological_split (db : List Game) (season_id min_games_played : Nat)
    (test_size : ℚ) (g1 g2 : Game)
    (h1 : g1 ∈ (train_test_split_noshuffle
      (collectAll db season_id min_games_played).example_games test_size).1)
    (h2 : g2 ∈ (train_test_split_noshuffle
      (collectAll db season_id min_games_played).example_games test_size).2) :
    g1.date ≤ g2.date := by
  have hsorted : ((collectAll db season_id min_games_played).example_games).Pairwise
      (fun a b => a.date ≤ b.date) := by
    rw [collectAll_example_games]
    exact (pairwise_orderByDate _).sublist (List.filter_sublist _)
  simp only [train_test_split_noshuffle] at h1 h2
  exact pairwise_take_drop hsorted _ g1 h1 g2 h2

/-- An early final contest for the split witness. -/
def c8GameA : Game :=
  { game_id := 1, season_id := 1, date := 1, home_team_id := 1,
    away_team_id := 2, home_score := 2, away_score := 1,
    game_status := finalStatus }

/-- A later final contest for the split witness. -/
def c8GameB : Game :=
  { game_id := 2, season_id := 1, date := 2, home_team_id := 2,
    away_team_id := 1, home_score := 0, away_score := 3,
    game_status := finalStatus }

/-- The store for the split witness, deliberately out of date order. -/
def c8Db : List Game := [c8GameB, c8GameA]

/-- Witness for C8: with `min_games_played = 0` both contests are labeled,
an 80/20-style split with `test_size = 1/2` puts `c8GameA` in the training
prefix and `c8GameB` in the test suffix, and the dates respect the claim. -/
theorem chronological_split_witness :
    c8GameA ∈ (train_test_split_noshuffle (collectAll c8Db 1 0).example_games (1/2)).1 ∧
    c8GameB ∈ (train_test_split_noshuffle (collectAll c8Db 1 0).example_games (1/2)).2 ∧
    c8GameA.date ≤ c8GameB.date := by
  have hex : (collectAll c8Db 1 0).example_games = [c8GameA, c8GameB] := by
    rw [collectAll_example_games]
    decide
  have hceil : (Rat.ceil ((1:ℚ)/2 * (([c8GameA, c8GameB] : List Game).length : ℚ))).toNat = 1 := by
    have hq : ((1:ℚ)/2 * (([c8GameA, c8GameB] : List Game).length : ℚ)) = 1 := by
      norm_num
    rw [hq]
    decide
  have hsplit : train_test_split_noshuffle ([c8GameA, c8GameB] : List Game) ((1:ℚ)/2) =
      ([c8GameA], [c8GameB]) := by
    simp only [train_test_split_noshuffle, hceil]
    rfl
  have h1 : c8GameA ∈ (train_test_split_noshuffle (collectAll c8Db 1 0).example_games (1/2)).1 := by
    rw [hex, hsplit]
    exact List.mem_singleton.mpr rfl
  have h2 : c8GameB ∈ (train_test_split_noshuffle (collectAll c8Db 1 0).example_games (1/2)).2 := by
    rw [hex, hsplit]
    exact List.mem_singleton.mpr rfl
  exact ⟨h1, h2, chronological_split c8Db 1 0 (1/2) c8GameA c8GameB h1 h2⟩

/-- C6 counterexample: with no trained artifact on disk, `predict_single_game`
returns `None` to the caller (after printing an error) rather than failing
with `ModelNotFoundError` — no such error exists in the source. -/
theorem missing_model_returns_none_counterexample :
    predict_single_game [] [] ModelFile.absent 1 2 0 1 none =
      PredictOutcome.noneReturned ∧
    PredictOutcome.noneReturned ≠ PredictOutcome.modelNotFoundError :=
  ⟨rfl, fun h => PredictOutcome.noConfusion h⟩

/-- C6 amended — when the trained model artifact is absent or unreadable and
no model is passed in, `predict_single_game` returns `None` to the caller; it
does not raise `ModelNotFoundError` (none exists), and in particular it never
returns a default 50/50 prediction result. -/
theorem missing_model_returns_none (db : List Game) (teams : List Team)
    (home_team_id away_team_id : Nat) (game_date : Int) (season_id : Nat) :
    predict_single_game db teams ModelFile.absent home_team_id away_team_id
      game_date season_id none = PredictOutcome.noneReturned ∧
    predict_single_game db teams ModelFile.unreadable home_team_id away_team_id
      game_date season_id none = PredictOutcome.noneReturned :=
  ⟨rfl, rfl⟩

/-- C10 — Prediction-result consistency: every result dictionary produced by
`predict_single_game` has win probabilities summing to 1, a confidence equal
to the larger probability (hence at least 1/2), and a predicted winner whose
probability equals that confidence. -/
theorem prediction_result_consistency (db : List Game) (teams : List Team)
    (disk : ModelFile) (home_team_id away_team_id : Nat) (game_date : Int)
    (season_id : Nat) (model? : Option TrainedModel) (r : PredictionResult)
    (h : predict_single_game db teams disk home_team_id away_team_id game_date
      season_id model? = PredictOutcome.ok r) :
    r.home_win_probability + r.away_win_probability = 1 ∧
    r.confidence = max r.home_win_probability r.away_win_probability ∧
    1/2 ≤ r.confidence ∧
    ((r.predicted_winner = r.home_team_name ∧
      r.home_win_probability = r.confidence) ∨
     (r.predicted_winner = r.away_team_name ∧
      r.away_win_probability = r.confidence)) := by
  rw [predict_single_game.eq_def] at h
  cases hload : (match model? with
    | some m => some m
    | none => load_trained_model disk) with
  | none =>
    rw [hload] at h
    cases h
  | some model =>
    rw [hload] at h
    dsimp only at h
    cases hvec : lookupAll
        (get_game_features db home_team_id away_team_id game_date season_id reducedKind)
        model.feature_names with
    | none =>
      rw [hvec] at h
      cases h
    | some feature_vector =>
      rw [hvec] at h
      have hr := (PredictOutcome.ok.injEq _ _).mp h
      subst hr
      set p := model.classifier.probHome feature_vector with hp
      have h0 : 0 ≤ p := model.classifier.probHome_nonneg feature_vector
      have h1 : p ≤ 1 := model.classifier.probHome_le_one feature_vector
      refine ⟨by ring, rfl, ?_, ?_⟩
      · rcases le_total p (1/2) with hle | hle
        · have : 1/2 ≤ 1 - p := by linarith
          exact le_trans this (le_max_right p (1 - p))
        · exact le_trans hle (le_max_left p (1 - p))
      · by_cases hgt : 1/2 < p
        · left
          constructor
          · show (if ((if 1/2 < p then 1 else 0 : Nat) == 1) = true then
                get_team_name teams home_team_id
              else get_team_name teams away_team_id) = get_team_name teams home_team_id
            rw [if_pos hgt]
            simp
          · have hle : 1 - p ≤ p := by linarith
            exact (max_eq_left hle).symm
        · right
          constructor
          · show (if ((if 1/2 < p then 1 else 0 : Nat) == 1) = true then
                get_team_name teams home_team_id
              else get_team_name teams away_team_id) = get_team_name teams away_team_id
            rw [if_neg hgt]
            simp
          · have hle : p ≤ 1 - p := by linarith [not_lt.mp hgt]
            exact (max_eq_right hle).symm

/-- A concrete classifier that always assigns home-win probability 1. -/
def constOneClassifier : BinaryClassifier :=
  { probHome := fun _ => 1,
    probHome_nonneg := fun _ => zero_le_one,
    probHome_le_one := fun _ => le_refl 1 }

/-- A concrete trained artifact (empty feature-name list, so the lookup
comprehension trivially succeeds). -/
def c10Model : TrainedModel :=
  { classifier := constOneClassifier, feature_names := [] }

/-- The result `predict_single_game` produces for `c10Model` on an empty
store. -/
def c10Result : PredictionResult :=
  { home_team_id := 1, away_team_id := 2,
    home_team_name := get_team_name [] 1,
    away_team_name := get_team_name [] 2,
    game_date := 0,
    home_win_probability := 1,
    away_win_probability := 1 - 1,
    predicted_winner := get_team_name [] 1,
    confidence := max (1 : ℚ) (1 - 1),
    features := get_game_features [] 1 2 0 1 reducedKind }

/-- Witness for C10: the concrete prediction run with `c10Model` produces
`c10Result`, and that result satisfies all four consistency properties. -/
theorem prediction_result_consistency_witness :
    c10Result.home_win_probability + c10Result.away_win_probability = 1 ∧
    c10Result.confidence = max c10Result.home_win_probability c10Result.away_win_probability ∧
    1/2 ≤ c10Result.confidence ∧
    ((c10Result.predicted_winner = c10Result.home_team_name ∧
      c10Result.home_win_probability = c10Result.confidence) ∨
     (c10Result.predicted_winner = c10Result.away_team_name ∧
      c10Result.away_win_probability = c10Result.confidence)) :=
  prediction_result_consistency [] [] (ModelFile.stored c10Model) 1 2 0 1 none
    c10Result (by
      rw [predict_single_game.eq_def]
      dsimp only [load_trained_model, c10Model, constOneClassifier, lookupAll]
      rw [if_pos (show (1:ℚ)/2 < 1 by norm_num)]
      rfl)
